import Mathlib

/-!
Shallow embedding of the payment-link status-synchronization subsystem:
the outcome parser (`checkPaymentPage`), the in-memory storage
(`MemStorage`), the check and renew API routes, the client reconnecting
WebSocket channel, and the reconciliation tick of the dashboard grid.

Conventions for translating the TypeScript source:
* JS optional-or-nullable arguments (`x?: string | null`) are modelled as
  `Option (Option String)`: `none` is `undefined` (argument omitted),
  `some none` is an explicit `null`, `some (some s)` is a string value.
  The JS nullish-coalescing operator `a ?? b` falls back to `b` for both
  `undefined` and `null`, which is `applyNullish` below.
* Thrown `PaymentLinkError`s become `Except String` values carrying the
  error code (`NOT_FOUND`, `INVALID_FORMAT`, ...), and the generic
  `Error` throws of `MemStorage` carry their message string.
* Page text is a `String`; the regex fragments of `checkPaymentPage` are
  translated to explicit leftmost-match scans over `List Char` (the
  character classes of each pattern are pairwise disjoint from the
  literals that follow them, so greedy maximal munch needs no
  backtracking and the scans below are exact).
-/

namespace PaymentMatrix

/-! ### Outcome parser (`checkPaymentPage` in the server routes file) -/

/-- `startsWith pat l` holds when `l` begins with the literal `pat`. -/
def startsWith : List Char → List Char → Bool
  | [], _ => true
  | _ :: _, [] => false
  | p :: ps, c :: cs => p == c && startsWith ps cs

/-- `containsSeg pat l`: `l` contains `pat` as a contiguous segment;
this is JS `String.prototype.includes`. -/
def containsSeg (pat : List Char) : List Char → Bool
  | [] => startsWith pat []
  | c :: cs => startsWith pat (c :: cs) || containsSeg pat cs

/-- The character class `\s` of the source regexes (ASCII part; the
page texts at issue contain no exotic Unicode spaces). -/
def jsSpace (c : Char) : Bool :=
  c == ' ' || c == '\t' || c == '\n' || c == '\r' || c == '\x0b' || c == '\x0c'

/-- The character class `[\d,.]` of the amount regex. -/
def isAmountChar (c : Char) : Bool :=
  c.isDigit || c == ',' || c == '.'

/-- Failure marker scanned for by `checkPaymentPage`. -/
def failureMarker : List Char := "Sorry, something went wrong".toList

/-- Literal head of the regex `/SP Transaction No\s+(\d+)/`. -/
def transLabel : List Char := "SP Transaction No".toList

/-- Literal head of the regex `/Amount\s+([\d,.]+)\s*AED/`. -/
def amountLabel : List Char := "Amount".toList

/-- Literal tail of the amount regex. -/
def currencyLabel : List Char := "AED".toList

/-- Attempt to match `/SP Transaction No\s+(\d+)/` at the start of `l`,
returning the captured digit group. -/
def matchTransAt (l : List Char) : Option (List Char) :=
  if startsWith transLabel l then
    let r1 := l.drop transLabel.length
    if (r1.takeWhile jsSpace).isEmpty then none
    else
      let ds := (r1.dropWhile jsSpace).takeWhile Char.isDigit
      if ds.isEmpty then none else some ds
  else none

/-- Attempt to match `/Amount\s+([\d,.]+)\s*AED/` at the start of `l`,
returning the captured amount group. -/
def matchAmountAt (l : List Char) : Option (List Char) :=
  if startsWith amountLabel l then
    let r1 := l.drop amountLabel.length
    if (r1.takeWhile jsSpace).isEmpty then none
    else
      let r2 := r1.dropWhile jsSpace
      let am := r2.takeWhile isAmountChar
      if am.isEmpty then none
      else
        if startsWith currencyLabel ((r2.dropWhile isAmountChar).dropWhile jsSpace)
        then some am else none
  else none

/-- Leftmost match: try the position matcher `f` at every suffix, left to
right; this is the semantics of JS `String.prototype.match` without the
global flag. -/
def firstMatch (f : List Char → Option (List Char)) : List Char → Option (List Char)
  | [] => f []
  | c :: cs =>
    match f (c :: cs) with
    | some r => some r
    | none => firstMatch f cs

/-- `text.match(/SP Transaction No\s+(\d+)/)`, capture group 1. -/
def matchTransaction (text : List Char) : Option (List Char) :=
  firstMatch matchTransAt text

/-- `text.match(/Amount\s+([\d,.]+)\s*AED/)`, capture group 1. -/
def matchAmount (text : List Char) : Option (List Char) :=
  firstMatch matchAmountAt text

/-- Classified parse of a fetched page body: the three ways the body
branch of `checkPaymentPage` can end. -/
inductive ParseResult where
  | failed (errorCode : String)
  | succeeded (transactionNo amountAED : Option String)
  | formatError
deriving DecidableEq, Repr

/-- The parsing portion of `checkPaymentPage`: failure marker first, then
token extraction, `formatError` (the thrown `INVALID_FORMAT`) when
neither token matched, otherwise success with whichever tokens matched. -/
def checkPageText (text : String) : ParseResult :=
  if containsSeg failureMarker text.toList then .failed "发生错误"
  else
    let t := matchTransaction text.toList
    let a := matchAmount text.toList
    if t.isNone && a.isNone then .formatError
    else .succeeded (t.map String.mk) (a.map String.mk)

/-- Result of the single `fetch` in `checkPaymentPage`: a body, or a
non-ok HTTP response with its status text. -/
inductive FetchResult where
  | ok (body : String)
  | httpError (statusText : String)
deriving DecidableEq, Repr

/-- The object returned by `checkPaymentPage` on its non-throwing paths. -/
structure CheckResult where
  isActive : Bool
  transactionNo : Option String
  amountAED : Option String
  errorCode : Option String
deriving DecidableEq, Repr

/-- `checkPaymentPage`, with the network fetch abstracted into its
`FetchResult` argument.  A non-ok response throws `FETCH_ERROR`
(`PaymentLinkError` code); a page with neither token throws
`INVALID_FORMAT`; the failure marker yields an inactive result whose
stored error code is the fixed string `发生错误`. -/
def checkPaymentPage (resp : FetchResult) : Except String CheckResult :=
  match resp with
  | .httpError _ => .error "FETCH_ERROR"
  | .ok text =>
    match checkPageText text with
    | .failed code => .ok ⟨false, none, none, some code⟩
    | .formatError => .error "INVALID_FORMAT"
    | .succeeded t a => .ok ⟨true, t, a, none⟩

/-! ### Storage (`MemStorage` in the server storage file) -/

/-- A payment link record, after the shared Drizzle schema
(`payment_links` table).  Timestamps are abstract `Nat` instants. -/
structure PaymentLink where
  id : Nat
  userId : Nat
  url : String
  amount : Int
  status : String
  errorCode : Option String
  lastChecked : Nat
  transactionNo : Option String
  amountAED : Option String
  archived : Bool
deriving DecidableEq, Repr

/-- The `paymentLinks : Map<number, PaymentLink>` of `MemStorage`, as an
association list with (by construction of the store) unique keys. -/
abbrev Storage := List (Nat × PaymentLink)

/-- `this.paymentLinks.get(id)`. -/
def lookupLink (st : Storage) (id : Nat) : Option PaymentLink :=
  (st.find? (fun p => p.1 == id)).map (fun p => p.2)

/-- `this.paymentLinks.set(id, l)` for a key already present. -/
def setLink (st : Storage) (id : Nat) (l : PaymentLink) : Storage :=
  st.map (fun p => if p.1 == id then (id, l) else p)

/-- `this.paymentLinks.delete(id)`. -/
def removeLink (st : Storage) (id : Nat) : Storage :=
  st.filter (fun p => p.1 != id)

/-- `MemStorage.getPaymentLinks`: every stored link whose `userId`
matches the caller. -/
def getPaymentLinks (st : Storage) (userId : Nat) : List PaymentLink :=
  (st.map (fun p => p.2)).filter (fun l => l.userId == userId)

/-- `MemStorage.deletePaymentLink`: one combined throw when the link is
missing or owned by someone else. -/
def deletePaymentLink (st : Storage) (id userId : Nat) : Except String Storage :=
  match lookupLink st id with
  | none => .error "Payment link not found or unauthorized"
  | some link =>
    if link.userId == userId then .ok (removeLink st id)
    else .error "Payment link not found or unauthorized"

/-- JS `arg ?? prior` where `arg` may be omitted (`none`), `null`
(`some none`) or a string (`some (some s)`): both omitted and `null`
fall back to `prior`. -/
def applyNullish (arg : Option (Option String)) (prior : Option String) : Option String :=
  match arg with
  | some (some s) => some s
  | _ => prior

/-- JS `arg ?? null`: both omitted and `null` become `null`. -/
def coalesceNull (arg : Option (Option String)) : Option String :=
  match arg with
  | some (some s) => some s
  | _ => none

/-- The record update built by `MemStorage.updatePaymentLinkStatus`
(`{ ...link, status, errorCode: errorCode ?? null, lastChecked: new Date(),
transactionNo: transactionNo ?? link.transactionNo,
amountAED: amountAED ?? link.amountAED }`). -/
def updateStatusLink (link : PaymentLink) (status : String)
    (errorCode transactionNo amountAED : Option (Option String)) (now : Nat) :
    PaymentLink :=
  { link with
    status := status
    errorCode := coalesceNull errorCode
    lastChecked := now
    transactionNo := applyNullish transactionNo link.transactionNo
    amountAED := applyNullish amountAED link.amountAED }

/-- `MemStorage.updatePaymentLinkStatus`: throws `Payment link not found`
when the id is absent; takes no owner argument. -/
def updatePaymentLinkStatus (st : Storage) (id : Nat) (status : String)
    (errorCode transactionNo amountAED : Option (Option String)) (now : Nat) :
    Except String (Storage × PaymentLink) :=
  match lookupLink st id with
  | none => .error "Payment link not found"
  | some link =>
    let updated := updateStatusLink link status errorCode transactionNo amountAED now
    .ok (setLink st id updated, updated)

/-- `MemStorage.updatePaymentLinkUrl`: replaces only the `url` field;
takes no owner argument. -/
def updatePaymentLinkUrl (st : Storage) (id : Nat) (url : String) :
    Except String (Storage × PaymentLink) :=
  match lookupLink st id with
  | none => .error "Payment link not found"
  | some link =>
    let updated := { link with url := url }
    .ok (setLink st id updated, updated)

/-- `MemStorage.archivePaymentLink`: owner-checked like delete, with the
same combined error; sets `archived := true`. -/
def archivePaymentLink (st : Storage) (id userId : Nat) :
    Except String (Storage × PaymentLink) :=
  match lookupLink st id with
  | none => .error "Payment link not found or unauthorized"
  | some link =>
    if link.userId == userId then
      let updated := { link with archived := true }
      .ok (setLink st id updated, updated)
    else .error "Payment link not found or unauthorized"

/-! ### API routes (server routes file) -/

/-- `POST /api/payment-links/:id/check`: look the link up in the
caller's own list (`NOT_FOUND` otherwise), probe it, and on a returned
result persist the mapped status mutation.  A thrown probe error
(`FETCH_ERROR`, `INVALID_FORMAT`) propagates to the route's catch and
becomes the error response, with no storage mutation. -/
def checkRoute (st : Storage) (userId id : Nat) (resp : FetchResult) (now : Nat) :
    Except String (Storage × PaymentLink) :=
  match (getPaymentLinks st userId).find? (fun l => l.id == id) with
  | none => .error "NOT_FOUND"
  | some link =>
    match checkPaymentPage resp with
    | .error e => .error e
    | .ok r =>
      updatePaymentLinkStatus st link.id (if r.isActive then "active" else "error")
        (r.errorCode.map some) (r.transactionNo.map some) (r.amountAED.map some) now

/-- `POST /api/payment-links/:id/renew`: validate the new URL, find the
link in the caller's list (`NOT_FOUND` otherwise, then a redundant
`UNAUTHORIZED` owner re-check), update the URL, then reset the status by
calling `updatePaymentLinkStatus(id, "active", null, null, null)` —
the three `null`s are `some none` here. -/
def renewRoute (st : Storage) (userId id : Nat) (url : String) (now : Nat) :
    Except String (Storage × PaymentLink) :=
  if url.isEmpty then .error "VALIDATION_ERROR"
  else
    match (getPaymentLinks st userId).find? (fun l => l.id == id) with
    | none => .error "NOT_FOUND"
    | some link =>
      if link.userId != userId then .error "UNAUTHORIZED"
      else
        match updatePaymentLinkUrl st id url with
        | .error e => .error e
        | .ok (st1, _) =>
          updatePaymentLinkStatus st1 id "active" (some none) (some none) (some none) now

/-- The per-link status mutation of the check route, factored on a single
record: the probe result (`Except` as thrown/returned by
`checkPaymentPage`) is mapped to `updateStatusLink` exactly as the route
maps it to `updatePaymentLinkStatus`; thrown probe errors reach no
mutation and are re-raised. -/
def applyCheckResult (link : PaymentLink) (r : Except String CheckResult) (now : Nat) :
    Except String PaymentLink :=
  match r with
  | .error e => .error e
  | .ok r =>
    .ok (updateStatusLink link (if r.isActive then "active" else "error")
      (r.errorCode.map some) (r.transactionNo.map some) (r.amountAED.map some) now)

/-! ### Reconciliation tick (client grid component)

The dashboard grid's interval effect runs every 5 seconds:
`links.forEach((link) => { if (link && !link.archived)
checkStatus(link.id).catch(...) })`, and the catch swallows per-link
failures. -/

/-- The links for which a check is issued on one tick: exactly the
present, non-archived entries of the current list. -/
def tickSelection (links : List (Option PaymentLink)) : List PaymentLink :=
  links.filterMap (fun o =>
    match o with
    | some l => if l.archived then none else some l
    | none => none)

/-- One reconciliation tick: run the check route for every selected link
(with that link's page given by `pages`), swallowing per-link errors as
the grid's `.catch` does.  Probes are modelled sequentially. -/
def runTick (st : Storage) (links : List (Option PaymentLink))
    (pages : Nat → FetchResult) (now : Nat) : Storage :=
  (tickSelection links).foldl
    (fun acc l =>
      match checkRoute acc l.userId l.id (pages l.id) now with
      | .ok (st', _) => st'
      | .error _ => acc) st

/-! ### Reconnecting client channel (client hooks file)

Module-level state of `use-payment-links.tsx`: the global `ws` variable,
the `reconnectAttempts` counter, `MAX_RECONNECT_ATTEMPTS = 5` and
`RECONNECT_DELAY = 1000`.  The browser/event side is made explicit:
`pendingClose` counts sockets whose `onclose` has yet to fire after a
`close()` call, `pendingTimers` counts `setTimeout(connectWebSocket, d)`
timers not yet fired, and `scheduled` logs the delay of every reconnect
timer ever scheduled, in order. -/

/-- `WebSocket.readyState` values the source branches on. -/
inductive WsReady where
  | connecting
  | opened
deriving DecidableEq, Repr

/-- Module-level client-channel state plus the pending event environment. -/
structure ChannelState where
  conn : Option WsReady
  reconnectAttempts : Nat
  scheduled : List Nat
  pendingTimers : Nat
  pendingClose : Nat
deriving DecidableEq, Repr

/-- Initial module state: `ws = null`, `reconnectAttempts = 0`. -/
def initChannel : ChannelState := ⟨none, 0, [], 0, 0⟩

/-- `MAX_RECONNECT_ATTEMPTS`. -/
def maxReconnectAttempts : Nat := 5

/-- `RECONNECT_DELAY` (ms). -/
def reconnectDelay : Nat := 1000

/-- `connectWebSocket()`: no-op while a socket is open or connecting
(re-entrancy guard), otherwise create a new connecting socket. -/
def connectWebSocket (s : ChannelState) : ChannelState :=
  match s.conn with
  | some .opened => s
  | some .connecting => s
  | none => { s with conn := some .connecting }

/-- `ws.onopen`: the socket becomes open and `reconnectAttempts` resets
to zero. -/
def onOpen (s : ChannelState) : ChannelState :=
  match s.conn with
  | some .connecting => { s with conn := some .opened, reconnectAttempts := 0 }
  | _ => s

/-- `ws.onclose`: null the global `ws`; if the counter is below the
ceiling, increment it and schedule a reconnect after
`RECONNECT_DELAY * 2 ^ (reconnectAttempts - 1)` ms.  The handler runs for
every close event, including the one produced by a deliberate
`ws.close()`. -/
def onClose (s : ChannelState) : ChannelState :=
  let s1 := { s with conn := none, pendingClose := s.pendingClose - 1 }
  if s1.reconnectAttempts < maxReconnectAttempts then
    let attempts := s1.reconnectAttempts + 1
    { s1 with
      reconnectAttempts := attempts
      scheduled := s1.scheduled ++ [reconnectDelay * 2 ^ (attempts - 1)]
      pendingTimers := s1.pendingTimers + 1 }
  else s1

/-- The `usePaymentLinks` effect cleanup: when the socket is open, call
`ws.close()` (its `onclose` will fire later) and null the global;
otherwise do nothing. -/
def shutdownChannel (s : ChannelState) : ChannelState :=
  match s.conn with
  | some .opened => { s with conn := none, pendingClose := s.pendingClose + 1 }
  | _ => s

/-- Events driving the channel: effect mount, socket open, socket close
(connection failure or completion of a deliberate close), a reconnect
timer firing, and effect cleanup. -/
inductive ChannelEvent where
  | activate
  | openEvt
  | closeEvt
  | timerFire
  | shutdownEvt
deriving DecidableEq, Repr

/-- One event step of the channel. -/
def channelStep (s : ChannelState) : ChannelEvent → ChannelState
  | .activate => connectWebSocket s
  | .openEvt => onOpen s
  | .closeEvt => onClose s
  | .timerFire => connectWebSocket { s with pendingTimers := s.pendingTimers - 1 }
  | .shutdownEvt => shutdownChannel s

/-- Run a sequence of channel events. -/
def runEvents (s : ChannelState) (es : List ChannelEvent) : ChannelState :=
  es.foldl channelStep s

/-! ### Demonstration records -/

/-- A link in the `error` state carrying terminal fields from an earlier
successful probe; owner is user 1. -/
def renewDemoLink : PaymentLink :=
  ⟨1, 1, "https://old", 100, "error", some "发生错误", 0, some "12345", some "99.00", false⟩

/-- The record actually produced by renewing `renewDemoLink` at instant 7
with URL `https://new`. -/
def renewDemoResult : PaymentLink :=
  ⟨1, 1, "https://new", 100, "active", none, 7, some "12345", some "99.00", false⟩

/-- A freshly created link of user 1 with all optional fields null. -/
def activeDemoLink : PaymentLink :=
  ⟨1, 1, "https://pay", 100, "active", none, 0, none, none, false⟩

/-- A second link of user 1. -/
def activeDemoLink2 : PaymentLink :=
  ⟨2, 1, "https://pay2", 250, "active", none, 0, none, none, false⟩

/-! ### Claims -/

/-- C1: the claim says a renew leaves the link with status `active` and
error code, transaction reference and collected amount all null load.
On the code, renewing a link that carries a transaction reference and a
collected amount does reset status and error code, but the stored
transaction reference and amount survive: the route passes `null` for
them, and `updatePaymentLinkStatus`'s `transactionNo ?? link.transactionNo`
(JS nullish coalescing) turns that explicit `null` back into the prior
stored value.  This evaluation exhibits the retained fields. -/
theorem renew_retains_terminal_fields :
    renewRoute [(1, renewDemoLink)] 1 1 "https://new" 7 =
      .ok ([(1, renewDemoResult)], renewDemoResult) ∧
    renewDemoResult.status = "active" ∧
    renewDemoResult.errorCode = none ∧
    renewDemoResult.transactionNo = some "12345" ∧
    renewDemoResult.amountAED = some "99.00" :=
  ⟨rfl, rfl, rfl, rfl, rfl⟩

/-- C3: the claim says that after a deliberate shutdown (view closed
while the connection is open) no reconnection is ever scheduled.  On the
code, the effect cleanup calls `ws.close()` and nulls the global, but the
socket's `onclose` handler still fires for that close and — the retry
counter being below the ceiling — schedules a reconnection after 1000 ms:
after the trace activate, open, deliberate shutdown, close-event, one
reconnect timer is pending and delay 1000 was scheduled. -/
theorem shutdown_schedules_reconnect :
    runEvents initChannel
      [.activate, .openEvt, .shutdownEvt, .closeEvt] =
      ⟨none, 1, [reconnectDelay], 1, 0⟩ := by
  decide

/-- The run in which the initial connection attempt and every scheduled
reconnection attempt immediately fail: activate, close event, then five
rounds of timer-fire / close event. -/
def failingTrace : List ChannelEvent :=
  [.activate, .closeEvt, .timerFire, .closeEvt, .timerFire, .closeEvt,
   .timerFire, .closeEvt, .timerFire, .closeEvt, .timerFire, .closeEvt]

/-- C5: starting from `Disconnected` with retry counter 0, when every
connection attempt immediately fails the channel schedules exactly the
five reconnection attempts the counter permits and ends disconnected with
no timer pending — no 6th reconnection attempt is ever scheduled — and
the delay before the n-th reconnection attempt (0-based index `n` here)
is `RECONNECT_DELAY * 2 ^ n`, i.e. base times `2 ^ (attempt - 1)`,
doubling from the 1000 ms base. -/
theorem backoff_five_failures :
    (runEvents initChannel failingTrace).conn = none ∧
    (runEvents initChannel failingTrace).pendingTimers = 0 ∧
    (runEvents initChannel failingTrace).scheduled =
      [1000, 2000, 4000, 8000, 16000] ∧
    ∀ n, n < 5 →
      (runEvents initChannel failingTrace).scheduled.getD n 0 =
        reconnectDelay * 2 ^ n := by
  refine ⟨by decide, by decide, by decide, ?_⟩
  decide

/-- Witness for C5: the hypothesis `n < 5` is dischargeable, e.g. for the
third reconnection attempt, whose delay is `1000 * 2 ^ 2` ms. -/
theorem backoff_five_failures_witness :
    (runEvents initChannel failingTrace).scheduled.getD 2 0 =
      reconnectDelay * 2 ^ 2 :=
  backoff_five_failures.2.2.2 2 (by decide)

/-- C6: any page text containing the fixed failure marker parses to
`Failed` with the fixed generic reason code, whatever else — including
success tokens — the text contains: the marker test is the first rule
and short-circuits extraction. -/
theorem parse_failed_on_marker (text : String)
    (h : containsSeg failureMarker text.toList = true) :
    checkPageText text = .failed "发生错误" := by
  simp [checkPageText, show containsSeg failureMarker text.data = true from h]

/-- Witness for C6: a page carrying the failure marker and also a valid
amount token still parses to `Failed`. -/
theorem parse_failed_on_marker_witness :
    checkPageText "Sorry, something went wrong Amount 5.00 AED" =
      .failed "发生错误" :=
  parse_failed_on_marker _ (by decide)

/-- `applyNullish` is idempotent in its prior argument. -/
theorem applyNullish_idem (arg : Option (Option String)) (x : Option String) :
    applyNullish arg (applyNullish arg x) = applyNullish arg x := by
  cases arg with
  | none => rfl
  | some o => cases o <;> rfl

/-- C8: applying the same probe outcome twice in succession to a link
yields the same stored status, error code, transaction reference and
collected amount as applying it once — the second application changes
only `lastChecked` — and an outcome that throws (`Malformed`,
`FetchFailed`) throws identically both times, mutating nothing. -/
theorem outcome_apply_idempotent (link : PaymentLink)
    (r : Except String CheckResult) (t₁ t₂ : Nat) :
    (∀ l₁, applyCheckResult link r t₁ = .ok l₁ →
        applyCheckResult l₁ r t₂ = .ok { l₁ with lastChecked := t₂ }) ∧
    (∀ e, applyCheckResult link r t₁ = .error e →
        applyCheckResult link r t₂ = .error e) := by
  constructor
  · intro l₁ h
    cases r with
    | error e => exact Except.noConfusion h
    | ok cr =>
      simp only [applyCheckResult] at h ⊢
      injection h with h1
      subst h1
      simp [updateStatusLink, applyNullish_idem]
  · intro e h
    cases r with
    | error e' => simpa [applyCheckResult] using h
    | ok cr => exact Except.noConfusion h

/-- The link produced by applying the outcome
`Succeeded{transactionNo := "777"}` to `activeDemoLink` at instant 1. -/
def idemDemoL1 : PaymentLink :=
  ⟨1, 1, "https://pay", 100, "active", none, 1, some "777", none, false⟩

/-- Witness for C8: re-applying the same successful outcome to the link
it produced changes only `lastChecked`. -/
theorem outcome_apply_idempotent_witness :
    applyCheckResult idemDemoL1 (.ok ⟨true, some "777", none, none⟩) 2 =
      .ok { idemDemoL1 with lastChecked := 2 } :=
  (outcome_apply_idempotent activeDemoLink
    (.ok ⟨true, some "777", none, none⟩) 1 2).1 idemDemoL1 rfl

/-- C9: a link with `archived = true` is never among the links the
reconciliation tick selects for probing, whatever the current list
holds. -/
theorem archived_never_selected (links : List (Option PaymentLink))
    (l : PaymentLink) (h : l.archived = true) :
    l ∉ tickSelection links := by
  intro hmem
  obtain ⟨o, _, hol⟩ := List.mem_filterMap.mp hmem
  cases o with
  | none => exact Option.noConfusion hol
  | some l' =>
    by_cases ha : l'.archived = true
    · simp [ha] at hol
    · simp [ha] at hol
      subst hol
      exact ha h

/-- An archived link of user 1. -/
def archivedDemoLink : PaymentLink :=
  ⟨3, 1, "https://arch", 50, "active", none, 0, none, none, true⟩

/-- Witness for C9: the archived demo link is not selected from a list
that contains it alongside an active link. -/
theorem archived_never_selected_witness :
    archivedDemoLink ∉
      tickSelection [some activeDemoLink, some archivedDemoLink] :=
  archived_never_selected _ _ rfl

/-- C10: a successful `updatePaymentLinkUrl` changes only the `url`
field of the stored link — status, error code, transaction reference,
collected amount, last-checked, archived flag, owner, amount and id are
all carried over unchanged — and the new store differs from the old only
at that id's entry. -/
theorem updateUrl_frame (st : Storage) (id : Nat) (url : String)
    (st' : Storage) (l' : PaymentLink)
    (h : updatePaymentLinkUrl st id url = .ok (st', l')) :
    ∃ l, lookupLink st id = some l ∧
      l'.url = url ∧ l'.id = l.id ∧ l'.userId = l.userId ∧
      l'.amount = l.amount ∧ l'.status = l.status ∧
      l'.errorCode = l.errorCode ∧ l'.lastChecked = l.lastChecked ∧
      l'.transactionNo = l.transactionNo ∧ l'.amountAED = l.amountAED ∧
      l'.archived = l.archived ∧ st' = setLink st id l' := by
  unfold updatePaymentLinkUrl at h
  cases hl : lookupLink st id with
  | none => rw [hl] at h; exact Except.noConfusion h
  | some l =>
    rw [hl] at h
    simp only [Except.ok.injEq, Prod.mk.injEq] at h
    obtain ⟨hst, hl'⟩ := h
    subst hl'
    exact ⟨l, rfl, rfl, rfl, rfl, rfl, rfl, rfl, rfl, rfl, rfl, rfl, hst.symm⟩

/-- The record produced by updating `renewDemoLink`'s URL alone. -/
def urlDemoResult : PaymentLink :=
  ⟨1, 1, "https://new", 100, "error", some "发生错误", 0, some "12345",
    some "99.00", false⟩

/-- Witness for C10: updating the URL of the stored error-state demo
link keeps every other field, including its error code and terminal
fields. -/
theorem updateUrl_frame_witness :
    ∃ l, lookupLink [(1, renewDemoLink)] 1 = some l ∧
      urlDemoResult.url = "https://new" ∧ urlDemoResult.id = l.id ∧
      urlDemoResult.userId = l.userId ∧ urlDemoResult.amount = l.amount ∧
      urlDemoResult.status = l.status ∧
      urlDemoResult.errorCode = l.errorCode ∧
      urlDemoResult.lastChecked = l.lastChecked ∧
      urlDemoResult.transactionNo = l.transactionNo ∧
      urlDemoResult.amountAED = l.amountAED ∧
      urlDemoResult.archived = l.archived ∧
      [(1, urlDemoResult)] = setLink [(1, renewDemoLink)] 1 urlDemoResult :=
  updateUrl_frame [(1, renewDemoLink)] 1 "https://new"
    [(1, urlDemoResult)] urlDemoResult rfl

/-- C2, counterexample: for a stored active link whose page text
(`hello`) has neither the failure marker nor any success token — a
`Malformed` probe — the check operation does not store `status = error`
on the link: the thrown `INVALID_FORMAT` escapes the per-link check as
the route's error response and no mutation happens. -/
theorem check_malformed_not_stored_cex :
    checkRoute [(1, activeDemoLink)] 1 1 (.ok "hello") 7 =
      .error "INVALID_FORMAT" := rfl

/-- C2, amended: a `Malformed` probe makes the check operation fail with
the distinct `INVALID_FORMAT` code — distinguishable from the `Failed`
outcome's stored reason `发生错误` — without storing anything on the
link, and the reconciliation tick swallows that per-link rejection, so
on a tick over a malformed-page link and a failed-page link the former's
entry is unchanged while the latter still gets `status = error`
persisted. -/
theorem check_malformed_amended (st : Storage) (userId id : Nat)
    (text : String) (now : Nat)
    (hfound : ((getPaymentLinks st userId).find? (fun l => l.id == id)).isSome = true)
    (hmal : checkPageText text = .formatError) :
    checkRoute st userId id (.ok text) now = .error "INVALID_FORMAT" ∧
    ("INVALID_FORMAT" : String) ≠ "发生错误" ∧
    runTick [(1, activeDemoLink), (2, activeDemoLink2)]
        [some activeDemoLink, some activeDemoLink2]
        (fun i => if i == 1 then .ok "hello there"
                  else .ok "Sorry, something went wrong") 9 =
      [(1, activeDemoLink),
       (2, { activeDemoLink2 with
              status := "error", errorCode := some "发生错误",
              lastChecked := 9 })] := by
  refine ⟨?_, by decide, by decide⟩
  obtain ⟨link, hfind⟩ := Option.isSome_iff_exists.mp hfound
  unfold checkRoute
  rw [hfind]
  simp [checkPaymentPage, hmal]

/-- Witness for C2's amended claim: checking a found link against the
unparseable page body `junk` yields the `INVALID_FORMAT` error response. -/
theorem check_malformed_amended_witness :
    checkRoute [(1, activeDemoLink)] 1 1 (.ok "junk") 7 =
      .error "INVALID_FORMAT" :=
  (check_malformed_amended [(1, activeDemoLink)] 1 1 "junk" 7
    (by decide) (by decide)).1

/-- C4, counterexample: `deletePaymentLink` reports the missing-target
case (id 2 is absent) and the not-owned case (id 1 exists but belongs to
user 1, caller is user 2) with the one identical combined error — the
two failure cases are not distinguishable. -/
theorem storage_errors_indistinguishable_cex :
    deletePaymentLink [(1, activeDemoLink)] 2 1 =
      .error "Payment link not found or unauthorized" ∧
    deletePaymentLink [(1, activeDemoLink)] 1 2 =
      .error "Payment link not found or unauthorized" :=
  ⟨rfl, rfl⟩

/-- C4, amended: listing, delete and archive are owner-scoped — the list
returns only caller-owned links, and delete/archive succeed only on an
existing link owned by the caller — but delete and archive fail with the
single combined message `Payment link not found or unauthorized` for
both the missing-target and the not-owned case, while the status and URL
updates take no owner at all: they succeed for any existing link
whatever its owner, and fail only with `Payment link not found`. -/
theorem storage_ops_amended :
    (∀ (st : Storage) (uid : Nat) (l : PaymentLink),
        l ∈ getPaymentLinks st uid → l.userId = uid) ∧
    (∀ (st : Storage) (id uid : Nat) (st' : Storage),
        deletePaymentLink st id uid = .ok st' →
        ∃ l, lookupLink st id = some l ∧ l.userId = uid) ∧
    (∀ (st : Storage) (id uid : Nat) (e : String),
        deletePaymentLink st id uid = .error e →
        e = "Payment link not found or unauthorized") ∧
    (∀ (st : Storage) (id uid : Nat) (st' : Storage) (l' : PaymentLink),
        archivePaymentLink st id uid = .ok (st', l') →
        ∃ l, lookupLink st id = some l ∧ l.userId = uid) ∧
    (∀ (st : Storage) (id uid : Nat) (e : String),
        archivePaymentLink st id uid = .error e →
        e = "Payment link not found or unauthorized") ∧
    (∀ (st : Storage) (id : Nat) (status : String)
        (ec tn am : Option (Option String)) (now : Nat),
        (lookupLink st id).isSome = true →
        ∃ r, updatePaymentLinkStatus st id status ec tn am now = .ok r) ∧
    (∀ (st : Storage) (id : Nat) (url : String),
        (lookupLink st id).isSome = true →
        ∃ r, updatePaymentLinkUrl st id url = .ok r) ∧
    (∀ (st : Storage) (id : Nat) (url : String) (e : String),
        updatePaymentLinkUrl st id url = .error e →
        e = "Payment link not found") := by
  refine ⟨?_, ?_, ?_, ?_, ?_, ?_, ?_, ?_⟩
  · intro st uid l hl
    have h2 := (List.mem_filter.mp hl).2
    simpa using h2
  · intro st id uid st' h
    unfold deletePaymentLink at h
    cases hl : lookupLink st id with
    | none => rw [hl] at h; exact Except.noConfusion h
    | some l =>
      rw [hl] at h
      simp only [] at h
      by_cases ho : (l.userId == uid) = true
      · exact ⟨l, rfl, by simpa using ho⟩
      · rw [if_neg ho] at h; exact Except.noConfusion h
  · intro st id uid e h
    unfold deletePaymentLink at h
    cases hl : lookupLink st id with
    | none => rw [hl] at h; exact (Except.error.inj h).symm
    | some l =>
      rw [hl] at h
      simp only [] at h
      by_cases ho : (l.userId == uid) = true
      · rw [if_pos ho] at h; exact Except.noConfusion h
      · rw [if_neg ho] at h; exact (Except.error.inj h).symm
  · intro st id uid st' l' h
    unfold archivePaymentLink at h
    cases hl : lookupLink st id with
    | none => rw [hl] at h; exact Except.noConfusion h
    | some l =>
      rw [hl] at h
      simp only [] at h
      by_cases ho : (l.userId == uid) = true
      · exact ⟨l, rfl, by simpa using ho⟩
      · rw [if_neg ho] at h; exact Except.noConfusion h
  · intro st id uid e h
    unfold archivePaymentLink at h
    cases hl : lookupLink st id with
    | none => rw [hl] at h; exact (Except.error.inj h).symm
    | some l =>
      rw [hl] at h
      simp only [] at h
      by_cases ho : (l.userId == uid) = true
      · rw [if_pos ho] at h; exact Except.noConfusion h
      · rw [if_neg ho] at h; exact (Except.error.inj h).symm
  · intro st id status ec tn am now hs
    cases hl : lookupLink st id with
    | none => rw [hl] at hs; simp at hs
    | some l =>
      refine ⟨(setLink st id (updateStatusLink l status ec tn am now),
               updateStatusLink l status ec tn am now), ?_⟩
      unfold updatePaymentLinkStatus
      rw [hl]
  · intro st id url hs
    cases hl : lookupLink st id with
    | none => rw [hl] at hs; simp at hs
    | some l =>
      refine ⟨(setLink st id { l with url := url }, { l with url := url }), ?_⟩
      unfold updatePaymentLinkUrl
      rw [hl]
  · intro st id url e h
    unfold updatePaymentLinkUrl at h
    cases hl : lookupLink st id with
    | none => rw [hl] at h; exact (Except.error.inj h).symm
    | some l => rw [hl] at h; exact Except.noConfusion h

/-- Witness for C4's amended claim: membership in user 1's list implies
ownership, and a successful delete by user 1 implies the target existed
and was owned by user 1. -/
theorem storage_ops_amended_witness :
    activeDemoLink.userId = 1 ∧
    (∃ l, lookupLink [(1, activeDemoLink)] 1 = some l ∧ l.userId = 1) :=
  ⟨storage_ops_amended.1 [(1, activeDemoLink)] 1 activeDemoLink (by decide),
   storage_ops_amended.2.1 [(1, activeDemoLink)] 1 1 [] rfl⟩

/-! ### Parser soundness: extracted tokens occur in the page text -/

/-- `SubSeg x l`: `x` occurs in `l` as a contiguous segment. -/
def SubSeg (x l : List Char) : Prop := ∃ s t, l = s ++ x ++ t

/-- The dropped tail of a list is one of its segments. -/
theorem subseg_of_drop (l : List Char) (n : Nat) : SubSeg (l.drop n) l :=
  ⟨l.take n, [], by simp⟩

/-- The `takeWhile` front of a list is one of its segments. -/
theorem subseg_takeWhile (p : Char → Bool) (l : List Char) :
    SubSeg (l.takeWhile p) l :=
  ⟨[], l.dropWhile p, by simp⟩

/-- The `dropWhile` tail of a list is one of its segments. -/
theorem subseg_dropWhile (p : Char → Bool) (l : List Char) :
    SubSeg (l.dropWhile p) l :=
  ⟨l.takeWhile p, [], by simp⟩

/-- Segments compose. -/
theorem subseg_trans {x m l : List Char} (h1 : SubSeg x m) (h2 : SubSeg m l) :
    SubSeg x l := by
  obtain ⟨s1, t1, rfl⟩ := h1
  obtain ⟨s2, t2, rfl⟩ := h2
  exact ⟨s2 ++ s1, t1 ++ t2, by simp⟩

/-- A segment of a list is a segment of any extension on the left. -/
theorem subseg_cons (c : Char) {x l : List Char} (h : SubSeg x l) :
    SubSeg x (c :: l) := by
  obtain ⟨s, t, rfl⟩ := h
  exact ⟨c :: s, t, rfl⟩

/-- Any capture returned by the transaction-number position matcher is a
nonempty all-digit segment of its input. -/
theorem matchTransAt_sound (l ds : List Char)
    (h : matchTransAt l = some ds) :
    SubSeg ds l ∧ ds ≠ [] ∧ ∀ c ∈ ds, Char.isDigit c = true := by
  unfold matchTransAt at h
  split at h
  · simp only [] at h
    split at h
    · exact Option.noConfusion h
    · split at h
      · exact Option.noConfusion h
      · next hne =>
        injection h with h1
        subst h1
        refine ⟨?_, ?_, fun c hc => List.mem_takeWhile_imp hc⟩
        · exact subseg_trans (subseg_takeWhile _ _)
            (subseg_trans (subseg_dropWhile _ _) (subseg_of_drop _ _))
        · simpa [List.isEmpty_iff] using hne
  · exact Option.noConfusion h

/-- Any capture returned by the amount position matcher is a nonempty
segment of its input made of digits, commas and dots. -/
theorem matchAmountAt_sound (l am : List Char)
    (h : matchAmountAt l = some am) :
    SubSeg am l ∧ am ≠ [] ∧ ∀ c ∈ am, isAmountChar c = true := by
  unfold matchAmountAt at h
  split at h
  · simp only [] at h
    split at h
    · exact Option.noConfusion h
    · split at h
      · exact Option.noConfusion h
      · next hne =>
        split at h
        · injection h with h1
          subst h1
          refine ⟨?_, ?_, fun c hc => List.mem_takeWhile_imp hc⟩
          · exact subseg_trans (subseg_takeWhile _ _)
              (subseg_trans (subseg_dropWhile _ _) (subseg_of_drop _ _))
          · simpa [List.isEmpty_iff] using hne
        · exact Option.noConfusion h
  · exact Option.noConfusion h

/-- Soundness transfers from a position matcher to its leftmost-match
scan. -/
theorem firstMatch_sound {f : List Char → Option (List Char)}
    {P : List Char → Prop}
    (hf : ∀ l r, f l = some r → SubSeg r l ∧ P r) :
    ∀ l r, firstMatch f l = some r → SubSeg r l ∧ P r := by
  intro l
  induction l with
  | nil => intro r h; rw [firstMatch] at h; exact hf [] r h
  | cons c cs ih =>
    intro r h
    rw [firstMatch] at h
    cases hfc : f (c :: cs) with
    | some r' =>
      rw [hfc] at h
      injection h with h1
      subst h1
      exact hf _ _ hfc
    | none =>
      rw [hfc] at h
      simp only [] at h
      obtain ⟨hs, hp⟩ := ih r h
      exact ⟨subseg_cons c hs, hp⟩

/-- C7: a page text without the failure marker but with at least one
matched success token parses to `Succeeded` carrying exactly the two
extraction results (so a token whose pattern does not match is `none` in
the result), and every token actually carried is a nonempty segment of
the page text in the token's character class — digits for the
transaction reference, digits/commas/dots for the amount — never
fabricated. -/
theorem parse_succeeded_exact (text : String)
    (hm : containsSeg failureMarker text.toList = false)
    (ht : matchTransaction text.toList ≠ none ∨
          matchAmount text.toList ≠ none) :
    checkPageText text =
      .succeeded ((matchTransaction text.toList).map String.mk)
        ((matchAmount text.toList).map String.mk) ∧
    (∀ ds, matchTransaction text.toList = some ds →
        SubSeg ds text.toList ∧ ds ≠ [] ∧ ∀ c ∈ ds, Char.isDigit c = true) ∧
    (∀ am, matchAmount text.toList = some am →
        SubSeg am text.toList ∧ am ≠ [] ∧ ∀ c ∈ am, isAmountChar c = true) := by
  refine ⟨?_, ?_, ?_⟩
  · have hm' : containsSeg failureMarker text.data = false := hm
    have ht' : matchTransaction text.data ≠ none ∨
        matchAmount text.data ≠ none := ht
    have hc : ((matchTransaction text.data).isNone &&
        (matchAmount text.data).isNone) = false := by
      rcases ht' with h | h
      · cases hx : matchTransaction text.data with
        | none => exact absurd hx h
        | some v => simp [hx]
      · cases hx : matchAmount text.data with
        | none => exact absurd hx h
        | some v => simp [hx, Bool.and_comm]
    simp [checkPageText, hm', hc]
  · intro ds hds
    exact firstMatch_sound matchTransAt_sound text.toList ds hds
  · intro am ham
    exact firstMatch_sound matchAmountAt_sound text.toList am ham

/-- Witness for C7: the reference scenario page carries both tokens and
parses to `Succeeded{"12345", "100.00"}`, both captures being segments of
the text. -/
theorem parse_succeeded_exact_witness :
    checkPageText "SP Transaction No 12345 paid Amount 100.00 AED" =
      .succeeded
        ((matchTransaction
          "SP Transaction No 12345 paid Amount 100.00 AED".toList).map String.mk)
        ((matchAmount
          "SP Transaction No 12345 paid Amount 100.00 AED".toList).map String.mk) ∧
    matchTransaction "SP Transaction No 12345 paid Amount 100.00 AED".toList =
      some "12345".toList ∧
    matchAmount "SP Transaction No 12345 paid Amount 100.00 AED".toList =
      some "100.00".toList :=
  ⟨(parse_succeeded_exact "SP Transaction No 12345 paid Amount 100.00 AED"
      (by decide) (Or.inl (by decide))).1,
   by decide, by decide⟩

end PaymentMatrix
